import Mathlib

/-!
Shallow embedding of the AIonic OpenAI client core (src/src/openai) in Lean 4,
with theorems checking the natural-language specification against the code.

The embedding covers:
  * the Chat capability configuration and its conversation history
    (src/openai/chat.rs, `Chat`, `Message`, `MessageRole`);
  * the streaming reassembler (`_process_delta`, `_ask_openai_streamed`)
    and the `ask` entry point of `OpenAI<Chat>` (src/openai/mod.rs);
  * the Audio capability sanity checks (`OpenAI<Audio>::_sanity_checks`);
  * file-content retrieval (`OpenAI<Files>::retrieve_content`).

External collaborators (HTTP transport, serde JSON codec) are modelled as
parameters: the transport is a record of the observable outcomes of one call
(POST success, the stream's chunk strings, the parsed non-streamed response)
and the JSON codec is a `String → Option _` parameter, following the spec's
description of them as narrow external interfaces.  Rust `f64` settings that
the code only compares against constant bounds are modelled as `ℚ`, which is
faithful for every non-NaN value.  Rust methods that take `&mut self` and
return `Result` are modelled as functions returning the result together with
the post-state, since a Rust caller keeps the mutated receiver even on `Err`.
-/

namespace AIonic

/-- Role of a chat message author (src/openai/chat.rs, `MessageRole`). -/
inductive MessageRole where
  | User
  | Assistant
  | System
  | Function
deriving DecidableEq

/-- `impl ToString for MessageRole` (src/openai/chat.rs). -/
def MessageRole.toStr : MessageRole → String
  | .User => "user"
  | .Assistant => "assistant"
  | .System => "system"
  | .Function => "function"

/-- src/openai/chat.rs, `FunctionCall`. -/
structure FunctionCall where
  name : String
  arguments : String
deriving DecidableEq

/-- src/openai/chat.rs, `Message`. -/
structure Message where
  role : String
  content : String
  name : Option String
  function_call : Option FunctionCall
deriving DecidableEq

/-- `Message::new` (src/openai/chat.rs). -/
def Message.new (role : MessageRole) (content : String) : Message :=
  ⟨role.toStr, content, none, none⟩

/-- `impl<T: Into<String>> From<T> for Message` (src/openai/chat.rs):
a plain string prompt becomes a User-role message. -/
def Message.fromString (s : String) : Message :=
  ⟨MessageRole.User.toStr, s, none, none⟩

/-- src/openai/chat.rs, `Delta` (one streamed increment). -/
structure Delta where
  role : Option String
  content : Option String
deriving DecidableEq

/-- src/openai/chat.rs, `StreamedChoices`. -/
structure StreamedChoices where
  index : Nat
  delta : Delta
  finish_reason : Option String
deriving DecidableEq

/-- src/openai/chat.rs, `StreamedReponse` (name kept as in the source). -/
structure StreamedReponse where
  id : String
  object : String
  created : Nat
  model : String
  choices : List StreamedChoices
deriving DecidableEq

/-- src/openai/chat.rs, `Usage`. -/
structure Usage where
  prompt_tokens : Nat
  completion_tokens : Nat
  total_tokens : Nat
deriving DecidableEq

/-- src/openai/chat.rs, `Choice` (non-streamed). -/
structure Choice where
  message : Message
  finish_reason : String
  index : Nat
deriving DecidableEq

/-- src/openai/chat.rs, `Response` (non-streamed chat response). -/
structure Response where
  id : Option String
  object : Option String
  created : Option Nat
  model : Option String
  choices : Option (List Choice)
  usage : Option Usage
deriving DecidableEq

/-- src/openai/chat.rs, `Function` (tool description in a chat request). -/
structure FunctionDecl where
  name : String
  description : Option String
  parameters : String
deriving DecidableEq

/-- src/openai/chat.rs, `Chat` configuration.  `f64` fields are modelled as
`ℚ` (the code only ever compares them with constant bounds). -/
structure Chat where
  model : String
  messages : List Message
  functions : Option (List FunctionDecl)
  function_call : Option String
  temperature : Option ℚ
  top_p : Option ℚ
  n : Option Int
  stream : Option Bool
  stop : Option String
  max_tokens : Option Nat
  presence_penalty : Option ℚ
  frequency_penalty : Option ℚ
  logit_bias : Option (List (String × ℚ))
  user : Option String
deriving DecidableEq

/-- The `OpenAI<Chat>` client state: the live-output toggle and the owned
configuration (the API key and the reqwest client are pure transport and
carry no modelled state). -/
structure OpenAIChat where
  disable_live_stream : Bool
  config : Chat
deriving DecidableEq

/-- `OpenAI::<C>::is_valid_temperature` (src/openai/mod.rs line 216):
`(0.0..=limit).contains(&temperature)`. -/
def is_valid_temperature (temperature limit : ℚ) : Bool :=
  decide (0 ≤ temperature) && decide (temperature ≤ limit)

/-- `OpenAI::<Chat>::set_primer` (src/openai/mod.rs lines 582-586):
`self.config.messages.insert(0, msg)` with a System-role message. -/
def set_primer (self : OpenAIChat) (primer_msg : String) : OpenAIChat :=
  { self with config :=
      { self.config with
          messages := Message.new MessageRole.System primer_msg :: self.config.messages } }

/-- `OpenAI::<Chat>::clear_state` (src/openai/mod.rs lines 604-607). -/
def clear_state (self : OpenAIChat) : OpenAIChat :=
  { self with config := { self.config with messages := [] } }

/-- Errors an `ask` call can return, abstracting the `Box<dyn Error>` values
of the source: transport failures (`reqwest` errors) and the
"Deserialization Error" raised by `_process_delta` / failed JSON decoding. -/
inductive AskError where
  | transport
  | deserialization
deriving DecidableEq

/-- Model of Rust `line.strip_prefix("data: ")` as used by `_process_delta`
(src/openai/mod.rs line 614): `some rest` exactly when the line starts with
the six characters `data: `, in which case `rest` is the remainder. -/
def stripDataTag (line : String) : Option String :=
  match line.data with
  | 'd' :: 'a' :: 't' :: 'a' :: ':' :: ' ' :: rest => some (String.mk rest)
  | _ => none

/-- Model of Rust `chunk.starts_with("[DONE]")` (src/openai/mod.rs line 615). -/
def startsWithDone (s : String) : Bool :=
  match s.data with
  | '[' :: 'D' :: 'O' :: 'N' :: 'E' :: ']' :: _ => true
  | _ => false

/-- Rust `str::trim` (both ends, whitespace characters) on the character
list view of a string, as called in `_process_delta`. -/
def rustTrim (s : String) : String :=
  String.mk (((s.data.dropWhile Char.isWhitespace).reverse.dropWhile
      Char.isWhitespace).reverse)

/-- Rust `str::strip_suffix('\n')`: `some` of the string without its final
character when that character is a newline, `none` otherwise. -/
def stripNewlineSuffix (s : String) : Option String :=
  match s.data.getLast? with
  | some c => if c = '\n' then some (String.mk s.data.dropLast) else none
  | none => none

/-- The content sanitization of `_process_delta` (src/openai/mod.rs line 624):
`content.trim().strip_suffix('\n').unwrap_or(&content)`. -/
def sanitizeContent (content : String) : String :=
  (stripNewlineSuffix (rustTrim content)).getD content

/-- `OpenAI::<Chat>::_process_delta` (src/openai/mod.rs lines 609-640),
with serde_json modelled by the `parse` parameter.  The live echo to stdout
is a side effect with no modelled state.  Returns the updated accumulated
answer fragments in place of the source's `&mut Vec<String>`. -/
def processDelta (parse : String → Option StreamedReponse) (line : String)
    (answer_text : List String) : Except AskError (List String) :=
  match stripDataTag line with
  | none => .ok answer_text
  | some chunk =>
    if startsWithDone chunk then
      .ok answer_text
    else
      match parse chunk with
      | some serde_chunk =>
          .ok (answer_text ++
            (serde_chunk.choices.filterMap (fun choice => choice.delta.content)).map
              sanitizeContent)
      | none => .error .deserialization

/-- Splitting a character list at every newline: the pieces between
newlines, empty pieces included, with `cur` the (reversed) piece read so
far. -/
def splitNewlineAux : List Char → List Char → List String
  | [], cur => [String.mk cur.reverse]
  | c :: rest, cur =>
    if c = '\n' then String.mk cur.reverse :: splitNewlineAux rest []
    else splitNewlineAux rest (c :: cur)

/-- Rust `chunk_str.split('\n')` (src/openai/mod.rs line 655): all pieces
between newline separators, in order, empty pieces included. -/
def splitNewline (s : String) : List String :=
  splitNewlineAux s.data []

/-- The inner line loop of `_ask_openai_streamed`: process each line of one
chunk in order, stopping at the first error (the `?` on line 657). -/
def processLines (parse : String → Option StreamedReponse) :
    List String → List String → Except AskError (List String)
  | [], answer_text => .ok answer_text
  | line :: rest, answer_text =>
    match processDelta parse line answer_text with
    | .error e => .error e
    | .ok answer_text2 => processLines parse rest answer_text2

/-- `OpenAI::<Chat>::_ask_openai_streamed` (src/openai/mod.rs lines 642-662).
The transport's `res.chunk()` outcomes are modelled as the list of chunk
strings delivered before the body ends (each already UTF-8-decoded; lossy
replacement never fails) plus a flag saying whether, after those chunks, the
next read yields a transport error instead of end-of-body. -/
def askStreamed (parse : String → Option StreamedReponse) :
    List String → Bool → List String → Except AskError (List String)
  | [], chunkErr, answer_text =>
      if chunkErr then .error .transport else .ok answer_text
  | c :: cs, chunkErr, answer_text =>
    match processLines parse (splitNewline c) answer_text with
    | .error e => .error e
    | .ok answer_text2 => askStreamed parse cs chunkErr answer_text2

/-- Observable outcomes of the one HTTP POST an `ask` call performs:
whether `_make_post_request` succeeds, the streamed chunk sequence and
whether it ends in a read error (used when `stream` is on), and the result
of `r.json::<Response>()` (used when `stream` is off; `none` is a
deserialization failure). -/
structure ChatTransport where
  postOk : Bool
  chunks : List String
  chunkErr : Bool
  jsonResp : Option Response
deriving DecidableEq

/-- The `self.config.messages.push(prompt.into())` step of `ask`
(src/openai/mod.rs line 721). -/
def askPush (self : OpenAIChat) (prompt : Message) : OpenAIChat :=
  { self with config :=
      { self.config with messages := self.config.messages ++ [prompt] } }

/-- The temperature check of `ask` (src/openai/mod.rs lines 722-727): an
out-of-range temperature is overwritten with `2.0`. -/
def askClamp (self : OpenAIChat) : OpenAIChat :=
  match self.config.temperature with
  | some temp =>
      if !(is_valid_temperature temp 2) then
        { self with config := { self.config with temperature := some 2 } }
      else self
  | none => self

/-- The answer-fragment collection of `ask` (src/openai/mod.rs lines
731-745): the streamed path drains the body through `_ask_openai_streamed`;
the non-streamed path parses the whole body as a `Response` and pushes every
choice's message content in order. -/
def askCollect (parse : String → Option StreamedReponse) (t : ChatTransport)
    (is_streamed : Bool) : Except AskError (List String) :=
  if is_streamed then
    askStreamed parse t.chunks t.chunkErr []
  else
    match t.jsonResp with
    | none => .error .deserialization
    | some r =>
      .ok (match r.choices with
           | some choices => choices.map (fun choice => choice.message.content)
           | none => [])

/-- The history update at the end of `ask` (src/openai/mod.rs lines
748-754): push an Assistant message when `persist_state`, else pop the last
message. -/
def askFinish (self : OpenAIChat) (persist_state : Bool)
    (answer_text : String) : OpenAIChat :=
  if persist_state then
    { self with config :=
        { self.config with
            messages := self.config.messages ++
              [Message.new MessageRole.Assistant answer_text] } }
  else
    { self with config :=
        { self.config with messages := self.config.messages.dropLast } }

/-- `OpenAI::<Chat>::ask` (src/openai/mod.rs lines 714-756).  Returns the
call's result together with the post-state of the client (a Rust caller
keeps the mutated `&mut self` even when the call returns `Err`, with every
`?` returning before the final history update). -/
def ask (parse : String → Option StreamedReponse) (t : ChatTransport)
    (self : OpenAIChat) (prompt : Message) (persist_state : Bool) :
    Except AskError String × OpenAIChat :=
  let is_streamed := self.config.stream.getD false
  let self1 := askClamp (askPush self prompt)
  if t.postOk then
    match askCollect parse t is_streamed with
    | .error e => (.error e, self1)
    | .ok answer_chunks =>
      let answer_text := String.join answer_chunks
      (.ok answer_text, askFinish self1 persist_state answer_text)
  else
    (.error .transport, self1)

/-- src/openai/audio.rs, `ResponseFormat`. -/
inductive AudioResponseFormat where
  | Json
  | Text
  | Srt
  | VerboseJson
  | Vtt
deriving DecidableEq

/-- src/openai/audio.rs, `Audio` configuration (`f64` temperature as `ℚ`). -/
structure Audio where
  file : String
  model : String
  prompt : Option String
  response_format : Option AudioResponseFormat
  temperature : Option ℚ
  language : Option String
deriving DecidableEq

/-- `Audio::ISO_639_1_CODES` (src/openai/audio.rs lines 138-151). -/
def ISO_639_1_CODES : List String :=
  ["ab", "aa", "af", "ak", "sq", "am", "ar", "an", "hy", "as", "av", "ae",
   "ay", "az", "bm", "ba", "eu", "be", "bn", "bh", "bi", "bs", "br", "bg",
   "my", "ca", "ch", "ce", "ny", "zh", "cv", "kw", "co", "cr", "hr", "cs",
   "da", "dv", "nl", "dz", "en", "eo", "et", "ee", "fo", "fj", "fi", "fr",
   "ff", "gl", "ka", "de", "el", "gn", "gu", "ht", "ha", "he", "hz", "hi",
   "ho", "hu", "ia", "id", "ie", "ga", "ig", "ik", "io", "is", "it", "iu",
   "ja", "jv", "kl", "kn", "kr", "ks", "kk", "km", "ki", "rw", "ky", "kv",
   "kg", "ko", "ku", "kj", "la", "lb", "lg", "li", "ln", "lo", "lt", "lu",
   "lv", "gv", "mk", "mg", "ms", "ml", "mt", "mi", "mr", "mh", "mn", "na",
   "nv", "nd", "ne", "ng", "nb", "nn", "no", "ii", "nr", "oc", "oj", "cu",
   "om", "or", "os", "pa", "pi", "fa", "pl", "ps", "pt", "qu", "rm", "rn",
   "ro", "ru", "sa", "sc", "sd", "se", "sm", "sg", "sr", "gd", "sn", "si",
   "sk", "sl", "so", "st", "es", "su", "sw", "ss", "sv", "ta", "te", "th",
   "ti", "to", "tn", "ts", "tk", "tr", "tw", "ug", "uk", "ur", "uz", "ve",
   "vi", "vo", "wa", "cy", "wo", "fy", "xh", "yi", "yo", "za", "zu"]

/-- `Audio::is_valid_language` (src/openai/audio.rs lines 204-209). -/
def is_valid_language (language : String) : Bool :=
  if language.length ≠ 2 then false
  else ISO_639_1_CODES.contains language

/-- The `OpenAI<Audio>` client state (transport and key omitted as for chat). -/
structure OpenAIAudio where
  disable_live_stream : Bool
  config : Audio
deriving DecidableEq

/-- Errors `_sanity_checks` can raise. -/
inductive AudioError where
  | invalidModel
  | invalidLanguage
deriving DecidableEq

/-- `OpenAI::<Audio>::_is_valid_model` (src/openai/mod.rs lines 1208-1210). -/
def audio_is_valid_model (self : OpenAIAudio) : Bool :=
  self.config.model = "whisper-1"

/-- The temperature step of `_sanity_checks` (src/openai/mod.rs lines
1213-1218): an out-of-range temperature is overwritten with `1.0`. -/
def audioClampTemp (self : OpenAIAudio) : OpenAIAudio :=
  match self.config.temperature with
  | some temp =>
      if !(is_valid_temperature temp 1) then
        { self with config := { self.config with temperature := some 1 } }
      else self
  | none => self

/-- The model and language checks of `_sanity_checks` (src/openai/mod.rs
lines 1220-1241), applied after the temperature write. -/
def audioValidate (self : OpenAIAudio) : Except AudioError Unit :=
  if !(audio_is_valid_model self) then .error .invalidModel
  else
    match self.config.language with
    | some lang =>
        if !(is_valid_language lang) then .error .invalidLanguage
        else .ok ()
    | none => .ok ()

/-- `OpenAI::<Audio>::_sanity_checks` (src/openai/mod.rs lines 1212-1242):
clamp an out-of-range temperature to `1.0`, then reject an unsupported model
or language.  Returns the result with the post-state (the temperature write
persists even when a later check errors, since `self` is `&mut`). -/
def audio_sanity_checks (self : OpenAIAudio) :
    Except AudioError Unit × OpenAIAudio :=
  let self1 := audioClampTemp self
  (audioValidate self1, self1)

/-- src/openai/files.rs, `PromptCompletion` (one JSON-Lines record). -/
structure PromptCompletion where
  prompt : String
  completion : String
deriving DecidableEq

/-- One trailing carriage return removed, for Rust `str::lines`. -/
def stripCarriageReturn (l : String) : String :=
  match l.data.getLast? with
  | some c => if c = '\r' then String.mk l.data.dropLast else l
  | none => l

/-- Rust `str::lines`: split on `'\n'`, drop the empty piece produced by a
trailing terminator, and strip one trailing `'\r'` from each line. -/
def rustLines (s : String) : List String :=
  let parts := splitNewline s
  let parts := if parts.getLast? = some "" then parts.dropLast else parts
  parts.map stripCarriageReturn

/-- The `.lines().map(serde_json::from_str).collect::<Result<Vec<_>, _>>()`
step of `retrieve_content` (src/openai/mod.rs lines 1399-1404): parse each
line independently, fail on the first line that does not parse, otherwise
keep every parsed record in line order. -/
def collectContent (parse : String → Option PromptCompletion) :
    List String → Except AskError (List PromptCompletion)
  | [] => .ok []
  | line :: rest =>
    match parse line with
    | none => .error .deserialization
    | some v =>
      match collectContent parse rest with
      | .error e => .error e
      | .ok vs => .ok (v :: vs)

/-- `OpenAI::<Files>::retrieve_content` (src/openai/mod.rs lines 1386-1406)
from the response body text onward, serde_json modelled by `parse` (the GET
and HTTP error handling are transport steps preceding the body). -/
def retrieve_content (parse : String → Option PromptCompletion)
    (body : String) : Except AskError (List PromptCompletion) :=
  collectContent parse (rustLines body)

/-! ### Helper lemmas -/

lemma dropWhile_head?_eq_false (p : Char → Bool) :
    ∀ (l : List Char) (c : Char), (l.dropWhile p).head? = some c → p c = false := by
  intro l
  induction l with
  | nil => intro c h; simp [List.dropWhile_nil] at h
  | cons a t ih =>
    intro c h
    by_cases hp : p a = true
    · rw [List.dropWhile_cons, if_pos hp] at h
      exact ih c h
    · rw [List.dropWhile_cons, if_neg hp] at h
      simp only [List.head?_cons, Option.some.injEq] at h
      subst h
      exact Bool.eq_false_iff.mpr hp

lemma rustTrim_getLast?_not_ws (s : String) (c : Char)
    (h : (rustTrim s).data.getLast? = some c) : c.isWhitespace = false := by
  unfold rustTrim at h
  rw [show (String.mk (((s.data.dropWhile Char.isWhitespace).reverse.dropWhile
        Char.isWhitespace).reverse)).data
      = ((s.data.dropWhile Char.isWhitespace).reverse.dropWhile
        Char.isWhitespace).reverse from rfl,
    List.getLast?_reverse] at h
  exact dropWhile_head?_eq_false _ _ _ h

/-- The sanitization step of `_process_delta` is the identity: after
`trim()` the string never ends in a newline, so `strip_suffix('\n')` always
fails and the `unwrap_or` falls back to the original content. -/
lemma sanitizeContent_eq (content : String) : sanitizeContent content = content := by
  unfold sanitizeContent stripNewlineSuffix
  cases hl : (rustTrim content).data.getLast? with
  | none => simp [hl]
  | some c =>
    have hw := rustTrim_getLast?_not_ws content c hl
    have hc : ¬(c = '\n') := by
      intro he; subst he; simp [Char.isWhitespace] at hw
    simp [hl, hc]

lemma askPush_messages (self : OpenAIChat) (m : Message) :
    (askPush self m).config.messages = self.config.messages ++ [m] := rfl

lemma askPush_temperature (self : OpenAIChat) (m : Message) :
    (askPush self m).config.temperature = self.config.temperature := rfl

lemma askClamp_messages (self : OpenAIChat) :
    (askClamp self).config.messages = self.config.messages := by
  unfold askClamp
  cases self.config.temperature with
  | none => rfl
  | some temp => dsimp only; split <;> rfl

lemma ask_snd_messages (parse : String → Option StreamedReponse)
    (t : ChatTransport) (self : OpenAIChat) (prompt : Message)
    (persist_state : Bool) :
    ((ask parse t self prompt persist_state).2).config.messages
      = match (ask parse t self prompt persist_state).1 with
        | .error _ => self.config.messages ++ [prompt]
        | .ok ans =>
            if persist_state then
              (self.config.messages ++ [prompt]) ++
                [Message.new MessageRole.Assistant ans]
            else (self.config.messages ++ [prompt]).dropLast := by
  unfold ask
  cases hpost : t.postOk with
  | false =>
    simp only [Bool.false_eq_true, if_false]
    rw [askClamp_messages, askPush_messages]
  | true =>
    simp only [if_true]
    cases hcol : askCollect parse t (self.config.stream.getD false) with
    | error e =>
      simp only
      rw [askClamp_messages, askPush_messages]
    | ok answer_chunks =>
      simp only
      unfold askFinish
      cases persist_state with
      | true =>
        simp only [if_true]
        rw [askClamp_messages, askPush_messages]
      | false =>
        simp only [Bool.false_eq_true, if_false]
        rw [askClamp_messages, askPush_messages]

lemma ask_snd_temperature (parse : String → Option StreamedReponse)
    (t : ChatTransport) (self : OpenAIChat) (prompt : Message)
    (persist_state : Bool) :
    ((ask parse t self prompt persist_state).2).config.temperature
      = (askClamp (askPush self prompt)).config.temperature := by
  unfold ask
  cases hpost : t.postOk with
  | false => simp only [Bool.false_eq_true, if_false]
  | true =>
    simp only [if_true]
    cases hcol : askCollect parse t (self.config.stream.getD false) with
    | error e => simp only
    | ok answer_chunks =>
      simp only
      unfold askFinish
      cases persist_state with
      | true => rfl
      | false => rfl

lemma processDelta_ignored (parse : String → Option StreamedReponse)
    (line : String) (acc : List String)
    (h : stripDataTag line = none ∨ stripDataTag line = some "[DONE]") :
    processDelta parse line acc = .ok acc := by
  unfold processDelta
  rcases h with h | h
  · rw [h]
  · rw [h]
    dsimp only
    rw [show startsWithDone "[DONE]" = true from rfl]
    simp

lemma processLines_ignored (parse : String → Option StreamedReponse) :
    ∀ (lines : List String) (acc : List String),
    (∀ line ∈ lines,
        stripDataTag line = none ∨ stripDataTag line = some "[DONE]") →
    processLines parse lines acc = .ok acc := by
  intro lines
  induction lines with
  | nil => intro acc _; rfl
  | cons l ls ih =>
    intro acc h
    unfold processLines
    rw [processDelta_ignored parse l acc (h l (by simp))]
    exact ih acc (fun x hx => h x (by simp [hx]))

lemma askStreamed_ignored (parse : String → Option StreamedReponse) :
    ∀ (chunks : List String) (acc : List String),
    (∀ c ∈ chunks, ∀ line ∈ splitNewline c,
        stripDataTag line = none ∨ stripDataTag line = some "[DONE]") →
    askStreamed parse chunks false acc = .ok acc := by
  intro chunks
  induction chunks with
  | nil => intro acc _; rfl
  | cons c cs ih =>
    intro acc h
    unfold askStreamed
    rw [processLines_ignored parse (splitNewline c) acc (h c (by simp))]
    exact ih acc (fun x hx => h x (by simp [hx]))

lemma processLines_append_err (parse : String → Option StreamedReponse)
    (line : String) (post : List String) :
    ∀ (pre : List String) (acc acc2 : List String),
    processLines parse pre acc = .ok acc2 →
    processDelta parse line acc2 = .error AskError.deserialization →
    processLines parse (pre ++ line :: post) acc
      = .error AskError.deserialization := by
  intro pre
  induction pre with
  | nil =>
    intro acc acc2 hpre herr
    unfold processLines at hpre
    injection hpre with hacc
    subst hacc
    rw [List.nil_append]
    unfold processLines
    rw [herr]
  | cons a t ih =>
    intro acc acc2 hpre herr
    rw [List.cons_append]
    unfold processLines at hpre ⊢
    cases hda : processDelta parse a acc with
    | error e => rw [hda] at hpre; exact absurd hpre (by simp)
    | ok acc3 =>
      rw [hda] at hpre
      dsimp only at hpre ⊢
      exact ih acc3 acc2 hpre herr

lemma askStreamed_append_err (parse : String → Option StreamedReponse)
    (c : String) (postChunks : List String) (chunkErr : Bool) :
    ∀ (preChunks : List String) (acc acc2 : List String),
    askStreamed parse preChunks false acc = .ok acc2 →
    processLines parse (splitNewline c) acc2
      = .error AskError.deserialization →
    askStreamed parse (preChunks ++ c :: postChunks) chunkErr acc
      = .error AskError.deserialization := by
  intro preChunks
  induction preChunks with
  | nil =>
    intro acc acc2 hpre herr
    unfold askStreamed at hpre
    rw [if_neg (by simp)] at hpre
    injection hpre with hacc
    subst hacc
    rw [List.nil_append]
    unfold askStreamed
    rw [herr]
  | cons a t ih =>
    intro acc acc2 hpre herr
    rw [List.cons_append]
    unfold askStreamed at hpre ⊢
    cases hpl : processLines parse (splitNewline a) acc with
    | error e => rw [hpl] at hpre; exact absurd hpre (by simp)
    | ok acc3 =>
      rw [hpl] at hpre
      dsimp only at hpre ⊢
      exact ih acc3 acc2 hpre herr

lemma ask_fst_of_streamed_err (parse : String → Option StreamedReponse)
    (t : ChatTransport) (self : OpenAIChat) (prompt : Message)
    (persist_state : Bool) (e : AskError)
    (hstream : self.config.stream = some true) (hpost : t.postOk = true)
    (herr : askStreamed parse t.chunks t.chunkErr [] = .error e) :
    (ask parse t self prompt persist_state).1 = .error e := by
  unfold ask askCollect
  simp only [hpost, hstream, Option.getD_some, if_true, herr]

/-- A small chat configuration builder used by concrete witness inputs. -/
def chatCfg (msgs : List Message) (stream : Option Bool) (temp : Option ℚ) :
    Chat :=
  ⟨"gpt-3.5-turbo", msgs, none, none, temp, none, none, stream, none, none,
   none, none, none, none⟩

lemma askClamp_temperature_invalid (self : OpenAIChat) (temp : ℚ)
    (h1 : self.config.temperature = some temp)
    (h2 : is_valid_temperature temp 2 = false) :
    (askClamp self).config.temperature = some 2 := by
  unfold askClamp
  rw [h1]
  dsimp only
  rw [h2]
  simp

lemma askClamp_temperature_valid (self : OpenAIChat) (temp : ℚ)
    (h1 : self.config.temperature = some temp)
    (h2 : is_valid_temperature temp 2 = true) :
    (askClamp self).config.temperature = some temp := by
  unfold askClamp
  rw [h1]
  dsimp only
  rw [h2]
  simp [h1]

lemma audioClampTemp_temperature_invalid (self : OpenAIAudio) (temp : ℚ)
    (h1 : self.config.temperature = some temp)
    (h2 : is_valid_temperature temp 1 = false) :
    (audioClampTemp self).config.temperature = some 1 := by
  unfold audioClampTemp
  rw [h1]
  dsimp only
  rw [h2]
  simp

lemma audioClampTemp_temperature_valid (self : OpenAIAudio) (temp : ℚ)
    (h1 : self.config.temperature = some temp)
    (h2 : is_valid_temperature temp 1 = true) :
    (audioClampTemp self).config.temperature = some temp := by
  unfold audioClampTemp
  rw [h1]
  dsimp only
  rw [h2]
  simp [h1]

lemma map_sanitizeContent (l : List String) : l.map sanitizeContent = l := by
  induction l with
  | nil => rfl
  | cons a t ih => simp [List.map_cons, sanitizeContent_eq, ih]

lemma collectContent_err (parse : String → Option PromptCompletion) :
    ∀ (lines : List String), (∃ l ∈ lines, parse l = none) →
    collectContent parse lines = .error AskError.deserialization := by
  intro lines
  induction lines with
  | nil => rintro ⟨l, hl, _⟩; cases hl
  | cons a t ih =>
    rintro ⟨l, hl, hp⟩
    unfold collectContent
    cases hpa : parse a with
    | none => rfl
    | some v =>
      have hmem : ∃ x ∈ t, parse x = none := by
        rcases List.mem_cons.mp hl with rfl | hmem
        · rw [hpa] at hp; cases hp
        · exact ⟨l, hmem, hp⟩
      rw [ih hmem]

lemma collectContent_ok (parse : String → Option PromptCompletion) :
    ∀ (lines : List String), (∀ l ∈ lines, (parse l).isSome) →
    collectContent parse lines = .ok (lines.filterMap parse) := by
  intro lines
  induction lines with
  | nil => intro _; rfl
  | cons a t ih =>
    intro h
    have ha := h a (by simp)
    cases hpa : parse a with
    | none => rw [hpa] at ha; simp at ha
    | some v =>
      unfold collectContent
      rw [hpa]
      dsimp only
      rw [ih (fun l hl => h l (by simp [hl]))]
      simp [List.filterMap_cons, hpa]

/-! ### Claim theorems -/

/-- Claim C7: `set_primer` always inserts a System-role message at index 0,
shifting every existing message one position down; calling it twice leaves
both system messages present, the most recent call's text at index 0 and the
earlier call's text at index 1, with no deduplication or replacement. -/
theorem set_primer_inserts_at_front (self : OpenAIChat) (t₁ t₂ : String) :
    (set_primer self t₁).config.messages
        = Message.new MessageRole.System t₁ :: self.config.messages
      ∧ (set_primer (set_primer self t₁) t₂).config.messages
        = Message.new MessageRole.System t₂ ::
            Message.new MessageRole.System t₁ :: self.config.messages :=
  ⟨rfl, rfl⟩

/-- Claim C10: a stream line whose payload after the `data: ` tag merely
starts with the characters `[DONE]` — trailing text included — is treated as
the end-of-turn sentinel: ignored without error and without appending any
fragment, because recognition uses `starts_with`, not equality. -/
theorem done_sentinel_matched_by_leading_chars
    (parse : String → Option StreamedReponse) (extra : String)
    (acc : List String) :
    processDelta parse ("data: [DONE]" ++ extra) acc = .ok acc := by
  unfold processDelta
  rw [show stripDataTag ("data: [DONE]" ++ extra) = some ("[DONE]" ++ extra)
    from rfl]
  dsimp only
  rw [show startsWithDone ("[DONE]" ++ extra) = true from rfl]
  simp

/-- Claim C8: when every line of every chunk either lacks the `data: ` tag
or carries the `[DONE]` sentinel payload, reassembly succeeds without error
and the accumulated answer is the empty string: such lines are silently
ignored and contribute no fragments. -/
theorem ignored_lines_yield_empty_answer
    (parse : String → Option StreamedReponse) (chunks : List String)
    (h : ∀ c ∈ chunks, ∀ line ∈ splitNewline c,
        stripDataTag line = none ∨ stripDataTag line = some "[DONE]") :
    askStreamed parse chunks false [] = .ok [] ∧ String.join [] = "" :=
  ⟨askStreamed_ignored parse chunks [] h, rfl⟩

/-- Witness for C8: a stream made of a `[DONE]` data line, non-data lines
and blank lines reassembles to the empty answer. -/
theorem ignored_lines_yield_empty_answer_witness :
    askStreamed (fun _ => none)
        ["data: [DONE]", "event: ping\n\n", "", ": keep-alive"] false []
      = .ok [] ∧ String.join [] = "" :=
  ignored_lines_yield_empty_answer (fun _ => none)
    ["data: [DONE]", "event: ping\n\n", "", ": keep-alive"] (by decide)

/-- Claim C3: a `data: ` line whose payload is not the `[DONE]` sentinel and
does not parse as a streamed response is a fatal error: the line itself
errors, the error survives the rest of the line and chunk loops, and the
whole streaming `ask` call returns that error instead of the fragments
accumulated so far. -/
theorem invalid_json_aborts_streamed_ask :
    (∀ (parse : String → Option StreamedReponse) (line payload : String)
        (acc : List String),
        stripDataTag line = some payload → startsWithDone payload = false →
        parse payload = none →
        processDelta parse line acc = .error AskError.deserialization)
    ∧ (∀ (parse : String → Option StreamedReponse) (line : String)
        (post pre acc acc2 : List String),
        processLines parse pre acc = .ok acc2 →
        processDelta parse line acc2 = .error AskError.deserialization →
        processLines parse (pre ++ line :: post) acc
          = .error AskError.deserialization)
    ∧ (∀ (parse : String → Option StreamedReponse) (c : String)
        (postChunks : List String) (chunkErr : Bool)
        (preChunks : List String) (acc acc2 : List String),
        askStreamed parse preChunks false acc = .ok acc2 →
        processLines parse (splitNewline c) acc2
          = .error AskError.deserialization →
        askStreamed parse (preChunks ++ c :: postChunks) chunkErr acc
          = .error AskError.deserialization)
    ∧ (∀ (parse : String → Option StreamedReponse) (t : ChatTransport)
        (self : OpenAIChat) (prompt : Message) (persist_state : Bool)
        (e : AskError),
        self.config.stream = some true → t.postOk = true →
        askStreamed parse t.chunks t.chunkErr [] = .error e →
        (ask parse t self prompt persist_state).1 = .error e) := by
  refine ⟨?_, ?_, ?_, ?_⟩
  · intro parse line payload acc h1 h2 h3
    unfold processDelta
    rw [h1]
    dsimp only
    rw [h2]
    simp only [Bool.false_eq_true, if_false]
    rw [h3]
  · intro parse line post pre acc acc2 hpre herr
    exact processLines_append_err parse line post pre acc acc2 hpre herr
  · intro parse c postChunks chunkErr preChunks acc acc2 hpre herr
    exact askStreamed_append_err parse c postChunks chunkErr preChunks acc
      acc2 hpre herr
  · intro parse t self prompt persist_state e hstream hpost herr
    exact ask_fst_of_streamed_err parse t self prompt persist_state e
      hstream hpost herr

/-- Witness for C3: with a codec that rejects the payload `bad`, the line
`data: bad` errors at every level and a streaming `ask` call over it
returns the deserialization error. -/
theorem invalid_json_aborts_streamed_ask_witness :
    processDelta (fun _ => none) "data: bad" [] = .error AskError.deserialization
    ∧ processLines (fun _ => none) (["data: [DONE]"] ++ "data: bad" :: []) []
        = .error AskError.deserialization
    ∧ askStreamed (fun _ => none) ([] ++ "data: bad" :: []) false []
        = .error AskError.deserialization
    ∧ (ask (fun _ => none) ⟨true, ["data: bad"], false, none⟩
        ⟨true, chatCfg [] (some true) none⟩ (Message.fromString "q") false).1
        = .error AskError.deserialization :=
  ⟨invalid_json_aborts_streamed_ask.1 (fun _ => none) "data: bad" "bad" []
      rfl rfl rfl,
   invalid_json_aborts_streamed_ask.2.1 (fun _ => none) "data: bad" []
      ["data: [DONE]"] [] [] rfl rfl,
   invalid_json_aborts_streamed_ask.2.2.1 (fun _ => none) "data: bad" []
      false [] [] [] rfl rfl,
   invalid_json_aborts_streamed_ask.2.2.2 (fun _ => none)
      ⟨true, ["data: bad"], false, none⟩ ⟨true, chatCfg [] (some true) none⟩
      (Message.fromString "q") false AskError.deserialization rfl rfl rfl⟩

/-- Claim C1 (amended): a `persist = false` call to `ask` that returns
successfully leaves the conversation history exactly as it was before the
call; but when the call returns an error, the just-appended User message
remains, so the history is the old history with the prompt appended. -/
theorem ask_persist_false_history (parse : String → Option StreamedReponse)
    (t : ChatTransport) (self : OpenAIChat) (prompt : Message) :
    (∀ ans, (ask parse t self prompt false).1 = .ok ans →
        ((ask parse t self prompt false).2).config.messages
          = self.config.messages)
    ∧ (∀ e, (ask parse t self prompt false).1 = .error e →
        ((ask parse t self prompt false).2).config.messages
          = self.config.messages ++ [prompt]) := by
  constructor
  · intro ans h
    rw [ask_snd_messages, h]
    simp
  · intro e h
    rw [ask_snd_messages, h]

/-- Witness for C1 (amended): a concrete successful non-streamed call with
`persist = false` restores the one-message history, and a concrete failing
call leaves the prompt appended. -/
theorem ask_persist_false_history_witness :
    ((ask (fun _ => none) ⟨true, [], false,
          some ⟨none, none, none, none, some [⟨⟨"assistant", "4", none, none⟩,
            "stop", 0⟩], none⟩⟩
        ⟨true, chatCfg [Message.new MessageRole.System "s"] (some false) none⟩
        (Message.fromString "2+2?") false).2).config.messages
      = [Message.new MessageRole.System "s"]
    ∧ ((ask (fun _ => none) ⟨false, [], false, none⟩
        ⟨true, chatCfg [Message.new MessageRole.System "s"] (some false) none⟩
        (Message.fromString "2+2?") false).2).config.messages
      = [Message.new MessageRole.System "s", Message.fromString "2+2?"] :=
  ⟨(ask_persist_false_history (fun _ => none) ⟨true, [], false,
        some ⟨none, none, none, none, some [⟨⟨"assistant", "4", none, none⟩,
          "stop", 0⟩], none⟩⟩
      ⟨true, chatCfg [Message.new MessageRole.System "s"] (some false) none⟩
      (Message.fromString "2+2?")).1 "4" rfl,
   (ask_persist_false_history (fun _ => none) ⟨false, [], false, none⟩
      ⟨true, chatCfg [Message.new MessageRole.System "s"] (some false) none⟩
      (Message.fromString "2+2?")).2 AskError.transport rfl⟩

/-- The concrete `ask` call refuting claim C1 as stated: the transport POST
fails, so the call returns an error with `persist = false`. -/
def c1FailingCall : Except AskError String × OpenAIChat :=
  ask (fun _ => none) ⟨false, [], false, none⟩
    ⟨true, chatCfg [] (some false) none⟩ (Message.fromString "hi") false

/-- Counterexample to C1 as stated: on an error return the history is not
restored — the `persist = false` call started with an empty history and
ends with the just-appended User message still present. -/
theorem ask_persist_false_error_keeps_prompt :
    c1FailingCall.1 = .error AskError.transport
    ∧ c1FailingCall.2.config.messages = [Message.fromString "hi"]
    ∧ c1FailingCall.2.config.messages ≠ ([] : List Message) :=
  ⟨rfl, rfl, by decide⟩

/-- Claim C6: a successful `ask` call with `persist = true` extends the
history by exactly two messages: the User message holding the prompt
followed by an Assistant message holding the reconstructed answer, appended
in that order at the end. -/
theorem ask_persist_true_appends_two
    (parse : String → Option StreamedReponse) (t : ChatTransport)
    (self : OpenAIChat) (p ans : String)
    (h : (ask parse t self (Message.fromString p) true).1 = .ok ans) :
    ((ask parse t self (Message.fromString p) true).2).config.messages
      = self.config.messages ++
          [Message.fromString p, Message.new MessageRole.Assistant ans]
    ∧ ((ask parse t self (Message.fromString p) true).2).config.messages.length
      = self.config.messages.length + 2 := by
  have hm := ask_snd_messages parse t self (Message.fromString p) true
  rw [h] at hm
  dsimp only at hm
  rw [if_pos rfl] at hm
  constructor
  · rw [hm, List.append_assoc]
    rfl
  · rw [hm]
    simp [List.length_append]

/-- Witness for C6: a concrete successful non-streamed call with
`persist = true` turns a one-message history into three messages, ending
with the user prompt and the assistant answer. -/
theorem ask_persist_true_appends_two_witness :
    ((ask (fun _ => none) ⟨true, [], false,
          some ⟨none, none, none, none, some [⟨⟨"assistant", "4", none, none⟩,
            "stop", 0⟩], none⟩⟩
        ⟨true, chatCfg [Message.new MessageRole.System "s"] (some false) none⟩
        (Message.fromString "2+2?") true).2).config.messages
      = [Message.new MessageRole.System "s"] ++
          [Message.fromString "2+2?", Message.new MessageRole.Assistant "4"]
    ∧ ((ask (fun _ => none) ⟨true, [], false,
          some ⟨none, none, none, none, some [⟨⟨"assistant", "4", none, none⟩,
            "stop", 0⟩], none⟩⟩
        ⟨true, chatCfg [Message.new MessageRole.System "s"] (some false) none⟩
        (Message.fromString "2+2?") true).2).config.messages.length
      = [Message.new MessageRole.System "s"].length + 2 :=
  ask_persist_true_appends_two (fun _ => none) ⟨true, [], false,
      some ⟨none, none, none, none, some [⟨⟨"assistant", "4", none, none⟩,
        "stop", 0⟩], none⟩⟩
    ⟨true, chatCfg [Message.new MessageRole.System "s"] (some false) none⟩
    "2+2?" "4" rfl

/-- Claim C5 (amended): an out-of-range temperature present when a request
is made is silently overwritten with the upper limit of the valid range
(2.0 for chat, 1.0 for audio) regardless of which bound it violated — a
negative temperature also becomes the limit, not 0 — and an in-range
temperature is left unchanged. -/
theorem out_of_range_temperature_set_to_limit :
    (∀ (parse : String → Option StreamedReponse) (t : ChatTransport)
        (self : OpenAIChat) (prompt : Message) (persist : Bool) (temp : ℚ),
        self.config.temperature = some temp →
        is_valid_temperature temp 2 = false →
        ((ask parse t self prompt persist).2).config.temperature = some 2)
    ∧ (∀ (parse : String → Option StreamedReponse) (t : ChatTransport)
        (self : OpenAIChat) (prompt : Message) (persist : Bool) (temp : ℚ),
        self.config.temperature = some temp →
        is_valid_temperature temp 2 = true →
        ((ask parse t self prompt persist).2).config.temperature = some temp)
    ∧ (∀ (self : OpenAIAudio) (temp : ℚ),
        self.config.temperature = some temp →
        is_valid_temperature temp 1 = false →
        ((audio_sanity_checks self).2).config.temperature = some 1)
    ∧ (∀ (self : OpenAIAudio) (temp : ℚ),
        self.config.temperature = some temp →
        is_valid_temperature temp 1 = true →
        ((audio_sanity_checks self).2).config.temperature = some temp) := by
  refine ⟨?_, ?_, ?_, ?_⟩
  · intro parse t self prompt persist temp h1 h2
    rw [ask_snd_temperature]
    exact askClamp_temperature_invalid (askPush self prompt) temp
      (by rw [askPush_temperature]; exact h1) h2
  · intro parse t self prompt persist temp h1 h2
    rw [ask_snd_temperature]
    exact askClamp_temperature_valid (askPush self prompt) temp
      (by rw [askPush_temperature]; exact h1) h2
  · intro self temp h1 h2
    exact audioClampTemp_temperature_invalid self temp h1 h2
  · intro self temp h1 h2
    exact audioClampTemp_temperature_valid self temp h1 h2

/-- Witness for C5 (amended): temperature 3 in a chat request becomes 2,
temperature 1 stays 1; temperature 3 in the audio sanity checks becomes 1,
temperature 1 stays 1. -/
theorem out_of_range_temperature_set_to_limit_witness :
    ((ask (fun _ => none) ⟨false, [], false, none⟩
        ⟨true, chatCfg [] (some false) (some 3)⟩
        (Message.fromString "hi") false).2).config.temperature = some 2
    ∧ ((ask (fun _ => none) ⟨false, [], false, none⟩
        ⟨true, chatCfg [] (some false) (some 1)⟩
        (Message.fromString "hi") false).2).config.temperature = some 1
    ∧ ((audio_sanity_checks
        ⟨true, ⟨"a.mp3", "whisper-1", none, none, some 3, none⟩⟩).2).config.temperature
      = some 1
    ∧ ((audio_sanity_checks
        ⟨true, ⟨"a.mp3", "whisper-1", none, none, some 1, none⟩⟩).2).config.temperature
      = some 1 :=
  ⟨out_of_range_temperature_set_to_limit.1 (fun _ => none)
      ⟨false, [], false, none⟩ ⟨true, chatCfg [] (some false) (some 3)⟩
      (Message.fromString "hi") false 3 rfl (by decide),
   out_of_range_temperature_set_to_limit.2.1 (fun _ => none)
      ⟨false, [], false, none⟩ ⟨true, chatCfg [] (some false) (some 1)⟩
      (Message.fromString "hi") false 1 rfl (by decide),
   out_of_range_temperature_set_to_limit.2.2.1
      ⟨true, ⟨"a.mp3", "whisper-1", none, none, some 3, none⟩⟩ 3 rfl
      (by decide),
   out_of_range_temperature_set_to_limit.2.2.2
      ⟨true, ⟨"a.mp3", "whisper-1", none, none, some 1, none⟩⟩ 1 rfl
      (by decide)⟩

/-- The concrete `ask` call refuting claim C5 as stated: the configured
temperature is -1, which lies below 0. -/
def c5NegativeTempCall : Except AskError String × OpenAIChat :=
  ask (fun _ => none) ⟨false, [], false, none⟩
    ⟨true, chatCfg [] (some false) (some (-1))⟩ (Message.fromString "hi")
    false

/-- Counterexample to C5 as stated: a temperature of -1 (below 0) is not
clamped to the nearest valid bound 0 — the code sets it to 2. -/
theorem below_zero_temperature_not_clamped_to_zero :
    ((-1 : ℚ) < 0)
    ∧ (c5NegativeTempCall.2).config.temperature = some 2
    ∧ (c5NegativeTempCall.2).config.temperature ≠ some 0 :=
  ⟨by norm_num, by decide, by decide⟩

/-- Claim C4 (code behavior at the failing input): the sanitization in
`_process_delta` never strips anything — `content.trim()` never ends in a
newline, so `strip_suffix('\n')` always fails and `unwrap_or(&content)`
falls back to the untouched original.  In particular the fragment appended
for a delta carrying `"hi\n"` is `"hi\n"`, not `"hi"` as the claim
requires. -/
theorem streamed_fragment_appended_unchanged :
    (∀ content, sanitizeContent content = content)
    ∧ sanitizeContent "hi\n" = "hi\n"
    ∧ processDelta
        (fun s => if s = "j" then
            some ⟨"i", "o", 0, "m", [⟨0, ⟨some "assistant", some "hi\n"⟩,
              none⟩]⟩
          else none)
        "data: j" [] = .ok ["hi\n"] :=
  ⟨sanitizeContent_eq, rfl, rfl⟩

/-- Claim C2: one streamed delta with text content contributes exactly its
raw content fragments, and a streamed `ask` and a non-streamed `ask` whose
responses carry the same logical content (equal fragment lists) return
byte-for-byte identical answer strings — both join their fragments with the
empty separator, so the return value does not reveal whether streaming was
used. -/
theorem streamed_and_nonstreamed_answers_agree :
    (∀ (parse : String → Option StreamedReponse) (line payload : String)
        (r : StreamedReponse) (acc : List String),
        stripDataTag line = some payload → startsWithDone payload = false →
        parse payload = some r →
        processDelta parse line acc
          = .ok (acc ++ r.choices.filterMap (fun choice => choice.delta.content)))
    ∧ (∀ (parse : String → Option StreamedReponse) (t₁ t₂ : ChatTransport)
        (self₁ self₂ : OpenAIChat) (p₁ p₂ : Message) (ps₁ ps₂ : Bool)
        (r : Response) (cs : List Choice) (frags : List String),
        self₁.config.stream = some true → t₁.postOk = true →
        askStreamed parse t₁.chunks t₁.chunkErr [] = .ok frags →
        self₂.config.stream.getD false = false → t₂.postOk = true →
        t₂.jsonResp = some r → r.choices = some cs →
        cs.map (fun choice => choice.message.content) = frags →
        ∃ ans, (ask parse t₁ self₁ p₁ ps₁).1 = .ok ans
          ∧ (ask parse t₂ self₂ p₂ ps₂).1 = .ok ans) := by
  constructor
  · intro parse line payload r acc h1 h2 h3
    unfold processDelta
    rw [h1]
    dsimp only
    rw [h2]
    simp only [Bool.false_eq_true, if_false]
    rw [h3]
    dsimp only
    rw [map_sanitizeContent]
  · intro parse t₁ t₂ self₁ self₂ p₁ p₂ ps₁ ps₂ r cs frags hs₁ hpost₁ hok
      hs₂ hpost₂ hjson hchoices hmap
    refine ⟨String.join frags, ?_, ?_⟩
    · unfold ask askCollect
      simp only [hs₁, hpost₁, Option.getD_some, if_true, hok]
    · unfold ask askCollect
      simp only [hs₂, hpost₂, hjson, if_true, Bool.false_eq_true, if_false]
      rw [hchoices]
      dsimp only
      rw [hmap]

/-- Witness for C2: a stream of two deltas (`Hel`, `lo`) and a non-streamed
response with the same two contents both answer the string `Hello`. -/
theorem streamed_and_nonstreamed_answers_agree_witness :
    ∃ ans,
      (ask (fun s => if s = "j1" then
            some ⟨"i", "o", 0, "m", [⟨0, ⟨some "assistant", some "Hel"⟩,
              none⟩]⟩
          else if s = "j2" then
            some ⟨"i", "o", 0, "m", [⟨0, ⟨none, some "lo"⟩, none⟩]⟩
          else none)
        ⟨true, ["data: j1\ndata: j2\n\n"], false, none⟩
        ⟨true, chatCfg [] (some true) none⟩ (Message.fromString "q") true).1
        = .ok ans
      ∧ (ask (fun s => if s = "j1" then
            some ⟨"i", "o", 0, "m", [⟨0, ⟨some "assistant", some "Hel"⟩,
              none⟩]⟩
          else if s = "j2" then
            some ⟨"i", "o", 0, "m", [⟨0, ⟨none, some "lo"⟩, none⟩]⟩
          else none)
        ⟨true, [], false, some ⟨none, none, none, none,
            some [⟨⟨"assistant", "Hel", none, none⟩, "stop", 0⟩,
              ⟨⟨"assistant", "lo", none, none⟩, "stop", 1⟩], none⟩⟩
        ⟨true, chatCfg [] (some false) none⟩ (Message.fromString "q") true).1
        = .ok ans :=
  streamed_and_nonstreamed_answers_agree.2
    (fun s => if s = "j1" then
        some ⟨"i", "o", 0, "m", [⟨0, ⟨some "assistant", some "Hel"⟩, none⟩]⟩
      else if s = "j2" then
        some ⟨"i", "o", 0, "m", [⟨0, ⟨none, some "lo"⟩, none⟩]⟩
      else none)
    ⟨true, ["data: j1\ndata: j2\n\n"], false, none⟩
    ⟨true, [], false, some ⟨none, none, none, none,
        some [⟨⟨"assistant", "Hel", none, none⟩, "stop", 0⟩,
          ⟨⟨"assistant", "lo", none, none⟩, "stop", 1⟩], none⟩⟩
    ⟨true, chatCfg [] (some true) none⟩ ⟨true, chatCfg [] (some false) none⟩
    (Message.fromString "q") (Message.fromString "q") true true
    ⟨none, none, none, none,
      some [⟨⟨"assistant", "Hel", none, none⟩, "stop", 0⟩,
        ⟨⟨"assistant", "lo", none, none⟩, "stop", 1⟩], none⟩
    [⟨⟨"assistant", "Hel", none, none⟩, "stop", 0⟩,
      ⟨⟨"assistant", "lo", none, none⟩, "stop", 1⟩]
    ["Hel", "lo"] rfl rfl rfl rfl rfl rfl rfl rfl

/-- Claim C9: file-content retrieval parses each line of the body
independently; one unparsable line fails the whole call with no partial
list, and when every line parses the call returns the parsed records in
line order. -/
theorem retrieve_content_per_line :
    (∀ (parse : String → Option PromptCompletion) (body line : String),
        line ∈ rustLines body → parse line = none →
        retrieve_content parse body = .error AskError.deserialization)
    ∧ (∀ (parse : String → Option PromptCompletion) (body : String),
        (∀ line ∈ rustLines body, (parse line).isSome) →
        retrieve_content parse body
          = .ok ((rustLines body).filterMap parse)) := by
  constructor
  · intro parse body line hmem hnone
    unfold retrieve_content
    exact collectContent_err parse (rustLines body) ⟨line, hmem, hnone⟩
  · intro parse body h
    unfold retrieve_content
    exact collectContent_ok parse (rustLines body) h

/-- Witness for C9: a two-line JSON-Lines body parses to its two records in
order; the same body with a malformed middle line fails whole. -/
theorem retrieve_content_per_line_witness :
    retrieve_content
        (fun s => if s = "l1" then some ⟨"p1", "c1"⟩
          else if s = "l2" then some ⟨"p2", "c2"⟩ else none)
        "l1\nl2\n"
      = .ok [⟨"p1", "c1"⟩, ⟨"p2", "c2"⟩]
    ∧ retrieve_content
        (fun s => if s = "l1" then some ⟨"p1", "c1"⟩
          else if s = "l2" then some ⟨"p2", "c2"⟩ else none)
        "l1\nbad\nl2"
      = .error AskError.deserialization := by
  constructor
  · rw [retrieve_content_per_line.2
      (fun s => if s = "l1" then some ⟨"p1", "c1"⟩
        else if s = "l2" then some ⟨"p2", "c2"⟩ else none)
      "l1\nl2\n" (by decide)]
    rfl
  · exact retrieve_content_per_line.1
      (fun s => if s = "l1" then some ⟨"p1", "c1"⟩
        else if s = "l2" then some ⟨"p2", "c2"⟩ else none)
      "l1\nbad\nl2" "bad" (by decide) rfl

end AIonic
